import Mathlib

/-!
Verification of the T-SQL / Fabric / Power Query M → Databricks SQL
conversion engine.  The Python code is shallowly embedded over `List Char`:
each `re.sub` / `re.search` call of the source is realised by a dedicated
matcher (the patterns are concrete, so no general regex engine is needed)
driven by a generic left-to-right, non-overlapping scan that mirrors
Python's `re.sub` semantics (matching happens on the current text only;
replacements are not re-scanned; `\b` refers to the original neighbours).
-/

namespace SQLConv

abbrev Chars := List Char

/-- Python `\w` on ASCII input: letters, digits, underscore. -/
def isWordChar (c : Char) : Bool := c.isAlpha || c.isDigit || c == '_'

/-- Python `\s` on ASCII input. -/
def isSpaceChar (c : Char) : Bool :=
  c == ' ' || c == '\t' || c == '\n' || c == '\r' || c == '\x0b' || c == '\x0c'

def upperL (s : Chars) : Chars := s.map Char.toUpper

def lowerL (s : Chars) : Chars := s.map Char.toLower

/-- Consume a literal, case-insensitively (Python `re.IGNORECASE`). -/
def litCI : Chars → Chars → Option Chars
  | [], s => some s
  | _, [] => none
  | p :: ps, c :: cs => if p.toLower == c.toLower then litCI ps cs else none

/-- Consume a literal, case-sensitively. -/
def litCS : Chars → Chars → Option Chars
  | [], s => some s
  | _, [] => none
  | p :: ps, c :: cs => if p == c then litCS ps cs else none

/-- Consume one expected character. -/
def chB : Char → Chars → Option Chars
  | _, [] => none
  | a, c :: cs => if a == c then some cs else none

/-- Greedy `X+` for a character class: fails on an empty take
(maximal munch, which coincides with regex greediness for all the
patterns used by the source, whose classes are disjoint from what
follows them). -/
def tw1 (p : Char → Bool) (s : Chars) : Option (Chars × Chars) :=
  let t := s.takeWhile p
  if t.isEmpty then none else some (t, s.dropWhile p)

/-- `needle in hay` (Python substring test). -/
def containsSub (needle : Chars) : Chars → Bool
  | [] => needle.isEmpty
  | c :: cs => needle.isPrefixOf (c :: cs) || containsSub needle cs

/-- Result of one successful match at the current position: replacement
text, optional log note, word-ness of the last consumed character (for
`\b` at the continuation point) and the remaining input. -/
structure MRes where
  rep : Chars
  note : Option Chars
  pwAfter : Bool
  rest : Chars

/-- A matcher receives the word-ness of the previous character
(`false` at the start of the string) and the remaining input. -/
abbrev Matcher := Bool → Chars → Option MRes

/-- Left-to-right, non-overlapping substitution, Python `re.sub`.
All matchers used here consume at least one character, so fuel equal to
the input length is always sufficient. -/
def scanSub (m : Matcher) : Nat → Bool → Chars → Chars × List Chars × Nat
  | _, _, [] => ([], [], 0)
  | 0, _, s => (s, [], 0)
  | fuel+1, pw, c :: cs =>
    match m pw (c :: cs) with
    | some r =>
      let t := scanSub m fuel r.pwAfter r.rest
      (r.rep ++ t.1, (match r.note with | some n => n :: t.2.1 | none => t.2.1), t.2.2 + 1)
    | none =>
      let t := scanSub m fuel (isWordChar c) cs
      (c :: t.1, t.2.1, t.2.2)

def runSub (m : Matcher) (s : Chars) : Chars × List Chars × Nat :=
  scanSub m s.length false s

/-- Does the pattern match at any position (Python `re.search`)? -/
def hasMatch (m : Matcher) : Bool → Chars → Bool
  | _, [] => false
  | pw, c :: cs => (m pw (c :: cs)).isSome || hasMatch m (isWordChar c) cs

/-- First match of a searcher over all positions (Python `re.search`
with captured groups). -/
def firstMatch {α : Type} (m : Chars → Option α) : Chars → Option α
  | [] => none
  | c :: cs =>
    match m (c :: cs) with
    | some r => some r
    | none => firstMatch m cs

/-- Python `re.findall(r'"([^"]+)"', s)`. -/
def findQuoted : Nat → Chars → List Chars
  | 0, _ => []
  | _, [] => []
  | fuel+1, '"' :: rest =>
    (match tw1 (fun c => !(c == '"')) rest with
     | some (q, r2) =>
       match r2 with
       | '"' :: r3 => q :: findQuoted fuel r3
       | _ => findQuoted fuel rest
     | none => findQuoted fuel rest)
  | fuel+1, _ :: rest => findQuoted fuel rest

/-! ## Converter instance state (`TSQLConverter.__init__`) -/

/-- Mirrors the mutable converter instance: target catalog/schema and the
instance-local `conversion_log`.  `None` and the empty string are both
falsy in Python, hence the `Option Chars` model plus `truthyOpt`. -/
structure Converter where
  catalog : Option Chars
  schema : Option Chars
  conversion_log : List Chars

def truthyOpt : Option Chars → Bool
  | none => false
  | some l => !l.isEmpty

/-! ## `TSQLConverter._convert_identifiers`
Pattern `\[([^\]]+)\]` with a computed replacement and one log note per
replacement. -/

def needsTicks (cap : Chars) : Bool :=
  cap.contains ' ' || cap.contains '-' || cap.contains '/' || cap.contains '\\'

def bracketRep (cap : Chars) : Chars :=
  if needsTicks cap then '\x60' :: (cap ++ ['\x60']) else cap

def bracketNote (cap : Chars) : Chars :=
  if needsTicks cap then
    "Converted bracketed identifier [".data ++ cap ++ "] to backticks".data
  else
    "Removed unnecessary brackets from [".data ++ cap ++ "]".data

/-- Try `\[([^\]]+)\]` at the current position: captured group and rest. -/
def bracketTok (s : Chars) : Option (Chars × Chars) :=
  match s with
  | c :: rest =>
    if c == '[' then
      if (rest.takeWhile (fun c => !(c == ']'))).isEmpty then none
      else
        match rest.dropWhile (fun c => !(c == ']')) with
        | d :: rest2 =>
          if d == ']' then some (rest.takeWhile (fun c => !(c == ']')), rest2) else none
        | [] => none
    else none
  | [] => none

def bracketMatcher : Matcher := fun _ s =>
  (bracketTok s).map (fun p => ⟨bracketRep p.1, some (bracketNote p.1), false, p.2⟩)

def convert_identifiers (s : Chars) : Chars × List Chars :=
  let r := runSub bracketMatcher s
  (r.1, r.2.1)

/-! ## `TSQLConverter._convert_date_functions`
The six `DATE_FUNCTION_PATTERNS` rewrites (each logged once if it fired),
followed by the unlogged `CAST(GETDATE() AS DATE)` special case and the
three unlogged `\bGETDATE\(\)`-style builtin replacements. -/

def matchSignedInt (s : Chars) : Option (Chars × Chars) :=
  match s with
  | '-' :: rest => (tw1 Char.isDigit rest).map (fun p => ('-' :: p.1, p.2))
  | _ => tw1 Char.isDigit s

/-- Shared head `DATEADD\s*\(\s*<unit>\s*,\s*(-?\d+)\s*,\s*` of patterns
1–4; returns the captured count and the rest. -/
def dateaddHead (unit : String) (s : Chars) : Option (Chars × Chars) := do
  let s ← litCI "DATEADD".data s
  let s := s.dropWhile isSpaceChar
  let s ← chB '(' s
  let s := s.dropWhile isSpaceChar
  let s ← litCI unit.data s
  let s := s.dropWhile isSpaceChar
  let s ← chB ',' s
  let s := s.dropWhile isSpaceChar
  let (num, s) ← matchSignedInt s
  let s := s.dropWhile isSpaceChar
  let s ← chB ',' s
  let s := s.dropWhile isSpaceChar
  return (num, s)

/-- `DATEADD\s*\(\s*day\s*,\s*(-?\d+)\s*,\s*GETDATE\(\)\s*\)` →
`DATE_ADD(CURRENT_DATE(), \1)`. -/
def pDateAddDayCur : Matcher := fun _ s => do
  let (num, s) ← dateaddHead "day" s
  let s ← litCI "GETDATE()".data s
  let s := s.dropWhile isSpaceChar
  let s ← chB ')' s
  return ⟨"DATE_ADD(CURRENT_DATE(), ".data ++ num ++ [')'], none, false, s⟩

/-- `DATEADD\s*\(\s*month\s*,\s*(-?\d+)\s*,\s*GETDATE\(\)\s*\)` →
`ADD_MONTHS(CURRENT_DATE(), \1)`. -/
def pDateAddMonthCur : Matcher := fun _ s => do
  let (num, s) ← dateaddHead "month" s
  let s ← litCI "GETDATE()".data s
  let s := s.dropWhile isSpaceChar
  let s ← chB ')' s
  return ⟨"ADD_MONTHS(CURRENT_DATE(), ".data ++ num ++ [')'], none, false, s⟩

/-- `DATEADD\s*\(\s*year\s*,\s*(-?\d+)\s*,\s*GETDATE\(\)\s*\)` →
`ADD_MONTHS(CURRENT_DATE(), \1 * 12)`. -/
def pDateAddYearCur : Matcher := fun _ s => do
  let (num, s) ← dateaddHead "year" s
  let s ← litCI "GETDATE()".data s
  let s := s.dropWhile isSpaceChar
  let s ← chB ')' s
  return ⟨"ADD_MONTHS(CURRENT_DATE(), ".data ++ num ++ " * 12)".data, none, false, s⟩

/-- `DATEADD\s*\(\s*day\s*,\s*(-?\d+)\s*,\s*([^\)]+)\s*\)` →
`DATE_ADD(\2, \1)`. -/
def pDateAddDayExpr : Matcher := fun _ s => do
  let (num, s) ← dateaddHead "day" s
  let (expr, s) ← tw1 (fun c => !(c == ')')) s
  let s := s.dropWhile isSpaceChar
  let s ← chB ')' s
  return ⟨"DATE_ADD(".data ++ expr ++ ", ".data ++ num ++ [')'], none, false, s⟩

/-- `DATEDIFF\s*\(\s*day\s*,\s*([^,]+)\s*,\s*([^\)]+)\s*\)` →
`DATEDIFF(\2, \1)`. -/
def pDateDiff : Matcher := fun _ s => do
  let s ← litCI "DATEDIFF".data s
  let s := s.dropWhile isSpaceChar
  let s ← chB '(' s
  let s := s.dropWhile isSpaceChar
  let s ← litCI "day".data s
  let s := s.dropWhile isSpaceChar
  let s ← chB ',' s
  let s := s.dropWhile isSpaceChar
  let (a, s) ← tw1 (fun c => !(c == ',')) s
  let s := s.dropWhile isSpaceChar
  let s ← chB ',' s
  let s := s.dropWhile isSpaceChar
  let (b, s) ← tw1 (fun c => !(c == ')')) s
  let s := s.dropWhile isSpaceChar
  let s ← chB ')' s
  return ⟨"DATEDIFF(".data ++ b ++ ", ".data ++ a ++ [')'], none, false, s⟩

/-- `CAST\s*\(\s*([^\s]+)\s+AS\s+DATE\s*\)` → `DATE(\1)`. -/
def pCastDate : Matcher := fun _ s => do
  let s ← litCI "CAST".data s
  let s := s.dropWhile isSpaceChar
  let s ← chB '(' s
  let s := s.dropWhile isSpaceChar
  let (e, s) ← tw1 (fun c => !(isSpaceChar c)) s
  let (_, s) ← tw1 isSpaceChar s
  let s ← litCI "AS".data s
  let (_, s) ← tw1 isSpaceChar s
  let s ← litCI "DATE".data s
  let s := s.dropWhile isSpaceChar
  let s ← chB ')' s
  return ⟨"DATE(".data ++ e ++ [')'], none, false, s⟩

/-- `CAST\s*\(\s*GETDATE\(\)\s+AS\s+DATE\s*\)` → `CURRENT_DATE()`
(the special case at converter.py:150). -/
def pCastGetdate : Matcher := fun _ s => do
  let s ← litCI "CAST".data s
  let s := s.dropWhile isSpaceChar
  let s ← chB '(' s
  let s := s.dropWhile isSpaceChar
  let s ← litCI "GETDATE()".data s
  let (_, s) ← tw1 isSpaceChar s
  let s ← litCI "AS".data s
  let (_, s) ← tw1 isSpaceChar s
  let s ← litCI "DATE".data s
  let s := s.dropWhile isSpaceChar
  let s ← chB ')' s
  return ⟨"CURRENT_DATE()".data, none, false, s⟩

/-- `\b<tok>` (leading word boundary only, as in `\bGETDATE\(\)`);
every such token ends in `)`, a non-word character. -/
def pWordLit (tok : String) (rep : String) : Matcher := fun pw s =>
  if pw then none
  else
    match litCI tok.data s with
    | some rest => some ⟨rep.data, none, false, rest⟩
    | none => none

def dateNote1 : Chars :=
  "Converted date function: DATEADD\\s*\\(\\s*day\\s*,\\s*(-?\\d+)\\s*,\\s*GETDATE\\(\\)\\s*\\) -> DATE_ADD(CURRENT_DATE(), \\1)".data
def dateNote2 : Chars :=
  "Converted date function: DATEADD\\s*\\(\\s*month\\s*,\\s*(-?\\d+)\\s*,\\s*GETDATE\\(\\)\\s*\\) -> ADD_MONTHS(CURRENT_DATE(), \\1)".data
def dateNote3 : Chars :=
  "Converted date function: DATEADD\\s*\\(\\s*year\\s*,\\s*(-?\\d+)\\s*,\\s*GETDATE\\(\\)\\s*\\) -> ADD_MONTHS(CURRENT_DATE(), \\1 * 12)".data
def dateNote4 : Chars :=
  "Converted date function: DATEADD\\s*\\(\\s*day\\s*,\\s*(-?\\d+)\\s*,\\s*([^\\)]+)\\s*\\) -> DATE_ADD(\\2, \\1)".data
def dateNote5 : Chars :=
  "Converted date function: DATEDIFF\\s*\\(\\s*day\\s*,\\s*([^,]+)\\s*,\\s*([^\\)]+)\\s*\\) -> DATEDIFF(\\2, \\1)".data
def dateNote6 : Chars :=
  "Converted date function: CAST\\s*\\(\\s*([^\\s]+)\\s+AS\\s+DATE\\s*\\) -> DATE(\\1)".data

def datePatternList : List (Matcher × Chars) :=
  [(pDateAddDayCur, dateNote1), (pDateAddMonthCur, dateNote2),
   (pDateAddYearCur, dateNote3), (pDateAddDayExpr, dateNote4),
   (pDateDiff, dateNote5), (pCastDate, dateNote6)]

/-- Apply one `if re.search: re.sub + log once` step. -/
def firedStep (acc : Chars × List Chars) (p : Matcher × Chars) : Chars × List Chars :=
  let r := runSub p.1 acc.1
  (r.1, acc.2 ++ (if r.2.2 == 0 then [] else [p.2]))

def convert_date_functions (s : Chars) : Chars × List Chars :=
  let a := datePatternList.foldl firedStep (s, [])
  let b := (runSub pCastGetdate a.1).1
  let c := (runSub (pWordLit "GETDATE()" "CURRENT_TIMESTAMP()") b).1
  let d := (runSub (pWordLit "GETUTCDATE()" "CURRENT_TIMESTAMP()") c).1
  let e := (runSub (pWordLit "SYSDATETIME()" "CURRENT_TIMESTAMP()") d).1
  (e, a.2)

/-! ## `TSQLConverter._convert_system_functions`
`TSQL_FUNCTION_MAPPINGS`, each applied as `\b<escaped>\b` with
IGNORECASE and logged once if it fired. -/

/-- `\b<tok>\b`: leading boundary via `pw`, trailing boundary inspected on
the rest.  For tokens ending in `)` the trailing `\b` demands a word
character right after; for word-ending tokens it demands a non-word
character or the end of input. -/
def pSysFunc (tok : String) (rep : String) (endsParen : Bool) : Matcher := fun pw s =>
  if pw then none
  else
    match litCI tok.data s with
    | some rest =>
      let ok :=
        if endsParen then
          match rest with
          | c :: _ => isWordChar c
          | [] => false
        else
          match rest with
          | c :: _ => !isWordChar c
          | [] => true
      if ok then some ⟨rep.data, none, !endsParen, rest⟩ else none
    | none => none

def sysFuncList : List (Matcher × Chars) :=
  [ (pSysFunc "GETDATE()" "CURRENT_TIMESTAMP()" true,
     "Converted function: GETDATE() -> CURRENT_TIMESTAMP()".data),
    (pSysFunc "GETUTCDATE()" "CURRENT_TIMESTAMP()" true,
     "Converted function: GETUTCDATE() -> CURRENT_TIMESTAMP()".data),
    (pSysFunc "SYSDATETIME()" "CURRENT_TIMESTAMP()" true,
     "Converted function: SYSDATETIME() -> CURRENT_TIMESTAMP()".data),
    (pSysFunc "CURRENT_TIMESTAMP" "CURRENT_TIMESTAMP()" false,
     "Converted function: CURRENT_TIMESTAMP -> CURRENT_TIMESTAMP()".data),
    (pSysFunc "NEWID()" "UUID()" true,
     "Converted function: NEWID() -> UUID()".data),
    (pSysFunc "ISNULL" "COALESCE" false,
     "Converted function: ISNULL -> COALESCE".data),
    (pSysFunc "LEN" "LENGTH" false,
     "Converted function: LEN -> LENGTH".data),
    (pSysFunc "CHARINDEX" "INSTR" false,
     "Converted function: CHARINDEX -> INSTR".data),
    (pSysFunc "STUFF" "OVERLAY" false,
     "Converted function: STUFF -> OVERLAY".data),
    (pSysFunc "DATEPART" "EXTRACT" false,
     "Converted function: DATEPART -> EXTRACT".data) ]

def convert_system_functions (s : Chars) : Chars × List Chars :=
  sysFuncList.foldl firedStep (s, [])

/-! ## `TSQLConverter._convert_table_references`
The Unity-Catalog `re.sub` at converter.py:210 is commented out in the
source; the stage only builds an unused replacement closure and returns
its input with no notes. -/

def convert_table_references (_st : Converter) (sql : Chars) : Chars × List Chars :=
  (sql, [])

/-! ## `TSQLConverter._clean_format` -/

/-- `str.replace('#(lf)', '\n')`. -/
def pLf : Matcher := fun _ s =>
  (litCS "#(lf)".data s).map (fun r => ⟨['\n'], none, false, r⟩)

/-- `re.sub(r'\s+', ' ')`. -/
def pWs : Matcher := fun _ s =>
  (tw1 isSpaceChar s).map (fun p => ⟨[' '], none, false, p.2⟩)

/-- `re.sub(r'\s*,\s*', ', ')`. -/
def pComma : Matcher := fun _ s => do
  let s1 := s.dropWhile isSpaceChar
  let s2 ← chB ',' s1
  let s3 := s2.dropWhile isSpaceChar
  return ⟨", ".data, none, false, s3⟩

/-- `re.sub(r'\s*\(\s*', '(')`. -/
def pOpen : Matcher := fun _ s => do
  let s1 := s.dropWhile isSpaceChar
  let s2 ← chB '(' s1
  let s3 := s2.dropWhile isSpaceChar
  return ⟨['('], none, false, s3⟩

/-- `re.sub(r'\s*\)\s*', ') ')`. -/
def pClose : Matcher := fun _ s => do
  let s1 := s.dropWhile isSpaceChar
  let s2 ← chB ')' s1
  let s3 := s2.dropWhile isSpaceChar
  return ⟨") ".data, none, false, s3⟩

def stripWs (s : Chars) : Chars :=
  ((s.dropWhile isSpaceChar).reverse.dropWhile isSpaceChar).reverse

def clean_format (s : Chars) : Chars :=
  let a := (runSub pLf s).1
  let b := (runSub pWs a).1
  let c := (runSub pComma b).1
  let d := (runSub pOpen c).1
  let e := (runSub pClose d).1
  stripWs e

/-! ## `TSQLConverter.convert_query` -/

def convert_query (st : Converter) (q : Chars) : (Chars × List Chars) × Converter :=
  let i := convert_identifiers q
  let d := convert_date_functions i.1
  let f := convert_system_functions d.1
  let t := convert_table_references st f.1
  let c := clean_format t.1
  let notes := i.2 ++ d.2 ++ f.2 ++ t.2
  ((c, notes), { st with conversion_log := notes })

/-! ## `utils.type_mappings.map_sql_server_type` -/

def typeTable : List (Chars × Chars) :=
  [ ("BIGINT".data, "BIGINT".data),
    ("INT".data, "INT".data),
    ("SMALLINT".data, "SMALLINT".data),
    ("TINYINT".data, "TINYINT".data),
    ("BIT".data, "BOOLEAN".data),
    ("DECIMAL".data, "DECIMAL".data),
    ("NUMERIC".data, "DECIMAL".data),
    ("MONEY".data, "DECIMAL(19,4)".data),
    ("SMALLMONEY".data, "DECIMAL(10,4)".data),
    ("FLOAT".data, "DOUBLE".data),
    ("REAL".data, "FLOAT".data),
    ("DATE".data, "DATE".data),
    ("DATETIME".data, "TIMESTAMP".data),
    ("DATETIME2".data, "TIMESTAMP".data),
    ("SMALLDATETIME".data, "TIMESTAMP".data),
    ("TIME".data, "STRING".data),
    ("DATETIMEOFFSET".data, "TIMESTAMP".data),
    ("CHAR".data, "STRING".data),
    ("VARCHAR".data, "STRING".data),
    ("TEXT".data, "STRING".data),
    ("NCHAR".data, "STRING".data),
    ("NVARCHAR".data, "STRING".data),
    ("NTEXT".data, "STRING".data),
    ("BINARY".data, "BINARY".data),
    ("VARBINARY".data, "BINARY".data),
    ("IMAGE".data, "BINARY".data),
    ("UNIQUEIDENTIFIER".data, "STRING".data),
    ("XML".data, "STRING".data),
    ("JSON".data, "STRING".data) ]

def lookupType (b : Chars) : Option Chars :=
  (typeTable.find? (fun p => p.1 == b)).map (·.2)

def isUpperAlpha (c : Char) : Bool := 'A' ≤ c && c ≤ 'Z'

/-- Group 2 of `re.match(r'([A-Z]+)(\(.*\))?', up)` applied to the text
after the base type: `\(` then greedy `.*` (which stops at a newline) and
a backtracked final `\)`, i.e. up to the last `)` of the newline-free
onset; empty when absent. -/
def grp2 : Chars → Chars
  | [] => []
  | c :: tail =>
    if c == '(' then
      (((c :: tail).takeWhile (fun x => !(x == '\n'))).reverse.dropWhile
        (fun x => !(x == ')'))).reverse
    else []

def map_sql_server_type (t : Chars) : Chars :=
  if ((upperL t).takeWhile isUpperAlpha).isEmpty then "STRING".data
  else
    match lookupType ((upperL t).takeWhile isUpperAlpha) with
    | some db =>
      if !(grp2 ((upperL t).dropWhile isUpperAlpha)).isEmpty &&
          (db == "DECIMAL".data || db == "NUMERIC".data) then
        db ++ grp2 ((upperL t).dropWhile isUpperAlpha)
      else if !(grp2 ((upperL t).dropWhile isUpperAlpha)).isEmpty &&
          db == "STRING".data then
        "STRING".data
      else db
    | none => "STRING".data

/-! ## `TSQLConverter._convert_data_types`
Per line not containing `CREATE TABLE`:
`re.sub(r'(\w+)\s+([A-Z]+(?:\([^\)]+\))?)', replace_type, line)` with a
note whenever the mapped type differs from the matched token. -/

def typeNote (col ty db : Chars) : Chars :=
  "Converted column ".data ++ col ++ " type: ".data ++ ty ++ " -> ".data ++ db

/-- The optional `(?:\([^\)]+\))?` tail of the type token: returns the
full token (base plus params when present) and the rest. -/
def typeParams (tyLetters : Chars) (s : Chars) : Chars × Chars :=
  match s with
  | '(' :: r =>
    (match tw1 (fun c => !(c == ')')) r with
     | some (mid, r2) =>
       (match r2 with
        | ')' :: r3 => (tyLetters ++ '(' :: (mid ++ [')']), r3)
        | _ => (tyLetters, s))
     | none => (tyLetters, s))
  | _ => (tyLetters, s)

/-- Try `(\w+)\s+([A-Z]+(?:\([^\)]+\))?)` at the current position:
column name, full type token, rest. -/
def typeTok (s : Chars) : Option (Chars × Chars × Chars) :=
  match tw1 isWordChar s with
  | none => none
  | some (col, s1) =>
    match tw1 isSpaceChar s1 with
    | none => none
    | some (_, s2) =>
      match tw1 isUpperAlpha s2 with
      | none => none
      | some (tyLetters, s3) =>
        let pr := typeParams tyLetters s3
        some (col, pr.1, pr.2)

def typeMatcher : Matcher := fun _ s =>
  (typeTok s).map (fun t =>
    let db := map_sql_server_type t.2.1
    ⟨t.1 ++ ' ' :: db,
     (if db == t.2.1 then none else some (typeNote t.1 t.2.1 db)),
     false, t.2.2⟩)

def splitOnNl : Chars → List Chars
  | [] => [[]]
  | '\n' :: rest => [] :: splitOnNl rest
  | c :: rest =>
    match splitOnNl rest with
    | h :: t => (c :: h) :: t
    | [] => [[c]]

def joinNl (ls : List Chars) : Chars := List.intercalate ['\n'] ls

def convert_data_types (s : Chars) : Chars × List Chars :=
  let res := (splitOnNl s).map (fun l =>
    if containsSub "CREATE TABLE".data (upperL l) then (l, ([] : List Chars))
    else
      let r := runSub typeMatcher l
      (r.1, r.2.1))
  (joinNl (res.map (·.1)), (res.map (·.2)).flatten)

/-! ## `TSQLConverter._convert_constraints`
Pure detection-and-annotation: the text is returned unchanged. -/

def pkNote : Chars := "PRIMARY KEY constraint preserved (supported in Databricks)".data
def fkNote : Chars := "WARNING: FOREIGN KEY constraints are informational only in Databricks".data
def ckNote : Chars := "WARNING: CHECK constraints are informational only in Databricks".data

/-- Searcher for `re.search(r'CHECK\s*\(', ddl, re.IGNORECASE)`. -/
def pCheck : Matcher := fun _ s => do
  let s ← litCI "CHECK".data s
  let s := s.dropWhile isSpaceChar
  let s ← chB '(' s
  return ⟨[], none, false, s⟩

def convert_constraints (ddl : Chars) : Chars × List Chars :=
  (ddl,
    (if containsSub "PRIMARY KEY".data (upperL ddl) then [pkNote] else []) ++
    (if containsSub "FOREIGN KEY".data (upperL ddl) then [fkNote] else []) ++
    (if hasMatch pCheck false ddl then [ckNote] else []))

/-! ## `TSQLConverter._convert_default_values` (no notes in the source) -/

def pDefNewid : Matcher := fun _ s => do
  let s ← litCI "DEFAULT".data s
  let (_, s) ← tw1 isSpaceChar s
  let s ← litCI "NEWID()".data s
  return ⟨"DEFAULT UUID()".data, none, false, s⟩

def pDefGetdate : Matcher := fun _ s => do
  let s ← litCI "DEFAULT".data s
  let (_, s) ← tw1 isSpaceChar s
  let s ← litCI "GETDATE()".data s
  return ⟨"DEFAULT CURRENT_TIMESTAMP()".data, none, false, s⟩

def convert_default_values (s : Chars) : Chars :=
  (runSub pDefGetdate (runSub pDefNewid s).1).1

/-! ## Table-storage augmenter (convert_ddl step 5) -/

def deltaNote : Chars := "Added USING DELTA clause for Delta Lake table format".data

/-- Split at the last `)` (`converted.rfind(')')`): the first component
ends with that parenthesis, the second contains no `)`. -/
def lastParenSplit (s : Chars) : Chars × Chars :=
  ((s.reverse.dropWhile (fun c => !(c == ')'))).reverse,
   (s.reverse.takeWhile (fun c => !(c == ')'))).reverse)

def addDelta (s : Chars) : Chars × List Chars :=
  if containsSub "CREATE TABLE".data (upperL s) &&
     !containsSub "USING DELTA".data (upperL s) then
    if s.contains ')' then
      let p := lastParenSplit s
      (p.1 ++ " USING DELTA".data ++ p.2, [deltaNote])
    else (s, [])
  else (s, [])

/-! ## `TSQLConverter.convert_ddl` -/

/-- Text after DDL stages 1–4 (identifiers, data types, constraints,
DEFAULT values), i.e. the input handed to the storage augmenter. -/
def ddlStagesText (ddl : Chars) : Chars :=
  convert_default_values (convert_data_types (convert_identifiers ddl).1).1

def convert_ddl (st : Converter) (ddl : Chars) : (Chars × List Chars) × Converter :=
  let i := convert_identifiers ddl
  let t := convert_data_types i.1
  let c := convert_constraints t.1
  let dv := convert_default_values c.1
  let ad := addDelta dv
  let notes := i.2 ++ t.2 ++ c.2 ++ ad.2
  ((ad.1, notes), { st with conversion_log := notes })

/-! ## `FabricConverter.__init__` -/

def fabricNote : Chars := "Using Fabric Datamart converter (T-SQL dialect)".data

/-- `super().__init__` sets `conversion_log = []`, then the subclass
logs the dialect note, so a fresh instance's log is exactly that note. -/
def fabricInit (cat sch : Option Chars) : Converter := ⟨cat, sch, [fabricNote]⟩

/-! ## `PowerMConverter` -/

/-- The `source_info` dict of `_extract_source`: it can be left empty when
`'Salesforce.Data' in m_query` holds but the quoted-URL regex finds no
match (the inner `if match:` has no else branch). -/
inductive SourceInfo
  | empty
  | salesforce (url : Chars)
  | sqlserver
  | unknown
deriving DecidableEq, Repr

/-- `source_info.get('type', 'Unknown')`. -/
def sourceTypeStr : SourceInfo → Chars
  | .empty => "Unknown".data
  | .salesforce _ => "Salesforce".data
  | .sqlserver => "SQLServer".data
  | .unknown => "Unknown".data

/-- One position of `re.search(r'Salesforce\.Data\("([^"]+)"', m)`. -/
def mSFUrl (s : Chars) : Option Chars := do
  let s ← litCS "Salesforce.Data(\"".data s
  let (url, s) ← tw1 (fun c => !(c == '"')) s
  let _ ← chB '"' s
  return url

def sfNote : Chars := "Detected Salesforce data source".data
def sqlNote : Chars := "Detected SQL Server data source".data
def unknownNote : Chars := "WARNING: Could not detect data source type".data

def extract_source (m : Chars) : SourceInfo × List Chars :=
  if containsSub "Salesforce.Data".data m then
    match firstMatch mSFUrl m with
    | some url => (.salesforce url, [sfNote])
    | none => (.empty, [])
  else if containsSub "Sql.Database".data m || containsSub "Sql.Databases".data m then
    (.sqlserver, [sqlNote])
  else
    (.unknown, [unknownNote])

/-- One position of `re.search(r'\[Name="([^"]+)"\]', m)`. -/
def mName (s : Chars) : Option Chars := do
  let s ← litCS "[Name=\"".data s
  let (nm, s) ← tw1 (fun c => !(c == '"')) s
  let s ← chB '"' s
  let _ ← chB ']' s
  return nm

/-- One position of `re.search(r'Source\{(\[Name="([^"]+)"\])\}\[Data\]', m)`,
returning group 2. -/
def mSourceData (s : Chars) : Option Chars := do
  let s ← litCS "Source\x7b[Name=\"".data s
  let (nm, s) ← tw1 (fun c => !(c == '"')) s
  let s ← litCS "\"]\x7d[Data]".data s
  let _ := s
  return nm

def underscoreSp (s : Chars) : Chars := s.map (fun c => if c == ' ' then '_' else c)

def extract_table_name (m : Chars) : Chars × List Chars :=
  match firstMatch mName m with
  | some nm => (underscoreSp (lowerL nm), ["Extracted table name: ".data ++ nm])
  | none =>
    match firstMatch mSourceData m with
    | some nm => (underscoreSp (lowerL nm), ["Extracted Salesforce object name: ".data ++ nm])
    | none => ("unknown_table".data, [])

/-- One position of
`re.search(r'Table\.SelectColumns\([^,]+,\s*\{([^\}]+)\}', m)`. -/
def mSelCols (s : Chars) : Option Chars := do
  let s ← litCS "Table.SelectColumns(".data s
  let (_, s) ← tw1 (fun c => !(c == ',')) s
  let s ← chB ',' s
  let s := s.dropWhile isSpaceChar
  let s ← chB '\x7b' s
  let (inner, s) ← tw1 (fun c => !(c == '\x7d')) s
  let _ ← chB '\x7d' s
  return inner

def natChars (n : Nat) : Chars := (Nat.repr n).data

def extract_selected_columns (m : Chars) : List Chars × List Chars :=
  match firstMatch mSelCols m with
  | some inner =>
    let cols := findQuoted inner.length inner
    (cols, ["Found ".data ++ natChars cols.length ++ " selected columns".data])
  | none => ([['*']], ["No column selection found, using SELECT *".data])

/-- One position of
`re.search(r'Date\.IsInPreviousNDays\(\[([^\]]+)\],\s*(\d+)\)', m)`. -/
def mPrevNDays (s : Chars) : Option (Chars × Chars) := do
  let s ← litCS "Date.IsInPreviousNDays([".data s
  let (col, s) ← tw1 (fun c => !(c == ']')) s
  let s ← chB ']' s
  let s ← chB ',' s
  let s := s.dropWhile isSpaceChar
  let (d, s) ← tw1 Char.isDigit s
  let _ ← chB ')' s
  return (col, d)

/-- One position of
`re.search(r'Date\.IsInPreviousNMonths\(\[([^\]]+)\],\s*(\d+)\)', m)`. -/
def mPrevNMonths (s : Chars) : Option (Chars × Chars) := do
  let s ← litCS "Date.IsInPreviousNMonths([".data s
  let (col, s) ← tw1 (fun c => !(c == ']')) s
  let s ← chB ']' s
  let s ← chB ',' s
  let s := s.dropWhile isSpaceChar
  let (d, s) ← tw1 Char.isDigit s
  let _ ← chB ')' s
  return (col, d)

def extract_date_filter (m : Chars) : Option Chars × List Chars :=
  match firstMatch mPrevNDays m with
  | some (col, d) =>
    if d == "365".data then
      (some (col ++ " >= CURRENT_DATE() - INTERVAL 12 MONTHS".data),
       ["Converted Date.IsInPreviousNDays(".data ++ d ++ ") to 12 months filter".data])
    else
      (some (col ++ " >= CURRENT_DATE() - INTERVAL ".data ++ d ++ " DAYS".data),
       ["Converted Date.IsInPreviousNDays(".data ++ d ++ ") to days filter".data])
  | none =>
    match firstMatch mPrevNMonths m with
    | some (col, d) =>
      (some (col ++ " >= CURRENT_DATE() - INTERVAL ".data ++ d ++ " MONTHS".data),
       ["Converted Date.IsInPreviousNMonths(".data ++ d ++ ")".data])
    | none => (none, [])

/-- One position of
`re.search(r'Table\.Sort\([^,]+,\s*\{\{"([^"]+)",\s*Order\.(\w+)\}\}', m)`. -/
def mSort (s : Chars) : Option (Chars × Chars) := do
  let s ← litCS "Table.Sort(".data s
  let (_, s) ← tw1 (fun c => !(c == ',')) s
  let s ← chB ',' s
  let s := s.dropWhile isSpaceChar
  let s ← litCS "\x7b\x7b\"".data s
  let (col, s) ← tw1 (fun c => !(c == '"')) s
  let s ← litCS "\",".data s
  let s := s.dropWhile isSpaceChar
  let s ← litCS "Order.".data s
  let (ord, s) ← tw1 isWordChar s
  let _ ← litCS "\x7d\x7d".data s
  return (col, ord)

def extract_sort_order (m : Chars) : Option Chars × List Chars :=
  match firstMatch mSort m with
  | some (col, ord) =>
    let os := if ord == "Descending".data then "DESC".data else "ASC".data
    (some (col ++ ' ' :: os), ["Found sort order: ".data ++ col ++ ' ' :: os])
  | none => (none, [])

def joinWith (sep : Chars) : List Chars → Chars
  | [] => []
  | [x] => x
  | x :: y :: t => x ++ sep ++ joinWith sep (y :: t)

def buildNote : Chars := "Generated Databricks SQL CREATE TABLE statement".data

def build_databricks_query (cat sch : Option Chars) (si : SourceInfo)
    (table : Chars) (cols : List Chars) (filt sort : Option Chars) :
    Chars × List Chars :=
  let colsSql := if cols == [['*']] then ['*'] else joinWith ",\n  ".data cols
  let fromC :=
    if truthyOpt cat && truthyOpt sch then
      (cat.getD []) ++ '.' :: (sch.getD []) ++ '.' :: table
    else table
  let whereC := match filt with
    | some f => "\nWHERE ".data ++ f
    | none => []
  let orderC := match sort with
    | some o => "\nORDER BY ".data ++ o
    | none => []
  ("-- Converted from Power Query M\n-- Source: ".data ++ sourceTypeStr si ++
   "\n-- Target Table: ".data ++ table ++
   "\n\nCREATE OR REPLACE TABLE ".data ++ table ++
   " AS\nSELECT\n  ".data ++ colsSql ++
   "\nFROM ".data ++ fromC ++ whereC ++ orderC ++ [';'],
   [buildNote])

def powerM_convert (st : Converter) (m : Chars) : (Chars × List Chars) × Converter :=
  let s := extract_source m
  let t := extract_table_name m
  let c := extract_selected_columns m
  let f := extract_date_filter m
  let o := extract_sort_order m
  let b := build_databricks_query st.catalog st.schema s.1 t.1 c.1 f.1 o.1
  let notes := s.2 ++ t.2 ++ c.2 ++ f.2 ++ o.2 ++ b.2
  ((b.1, notes), { st with conversion_log := notes })

/-! ## Auxiliary notions used only to state properties -/

/-- Does the text contain a `\[([^\]]+)\]` token anywhere? -/
def hasBracketToken (s : Chars) : Bool := hasMatch bracketMatcher false s

/-- Number of (non-overlapping, left-to-right) matches a matcher finds:
the same scan as `scanSub`, counting only. -/
def countMatches (m : Matcher) : Nat → Bool → Chars → Nat
  | _, _, [] => 0
  | 0, _, _ => 0
  | fuel+1, pw, c :: cs =>
    match m pw (c :: cs) with
    | some r => countMatches m fuel r.pwAfter r.rest + 1
    | none => countMatches m fuel (isWordChar c) cs

/-- Number of bracket tokens the identifier stage replaces. -/
def bracketTokenCount (s : Chars) : Nat :=
  countMatches bracketMatcher s.length false s

/-- Notes whose first character is not `U`: no pipeline note can collide
with the Fabric construction note, which starts with `Using`. -/
abbrev notU (n : Chars) : Prop := n.head? ≠ some 'U'

end SQLConv

namespace SQLConv

/-! ## General lemmas about the scanning engine and substring search -/

theorem isPrefixOf_append {n a b : Chars} (h : n.isPrefixOf a = true) :
    n.isPrefixOf (a ++ b) = true := by
  induction n generalizing a with
  | nil => simp
  | cons x xs ih =>
    cases a with
    | nil => simp at h
    | cons y ys =>
      rw [List.isPrefixOf_cons₂] at h
      rw [List.cons_append, List.isPrefixOf_cons₂]
      simp only [Bool.and_eq_true] at h ⊢
      exact ⟨h.1, ih h.2⟩

theorem containsSub_nil_needle (b : Chars) : containsSub [] b = true := by
  cases b with
  | nil => rfl
  | cons c cs => simp [containsSub]

theorem containsSub_append_left {n b : Chars} (a : Chars)
    (h : containsSub n b = true) : containsSub n (a ++ b) = true := by
  induction a with
  | nil => simpa using h
  | cons c cs ih =>
    simp only [List.cons_append, containsSub, Bool.or_eq_true]
    exact Or.inr ih

theorem containsSub_append_right {n : Chars} (a b : Chars)
    (h : containsSub n a = true) : containsSub n (a ++ b) = true := by
  induction a with
  | nil =>
    have hn : n = [] := by
      cases n with
      | nil => rfl
      | cons x xs => exact Bool.noConfusion (h : false = true)
    subst hn
    simpa using containsSub_nil_needle b
  | cons c cs ih =>
    simp only [containsSub, Bool.or_eq_true] at h
    simp only [List.cons_append, containsSub, Bool.or_eq_true]
    cases h with
    | inl hp => exact Or.inl (by simpa [List.cons_append] using isPrefixOf_append (b := b) hp)
    | inr hr => exact Or.inr (ih hr)

theorem isPrefixOf_rfl (n : Chars) : n.isPrefixOf n = true := by
  induction n with
  | nil => simp
  | cons x xs ih =>
    rw [List.isPrefixOf_cons₂]
    simp [ih]

theorem containsSub_head {n : Chars} (q : Chars) : containsSub n (n ++ q) = true := by
  cases n with
  | nil => simpa using containsSub_nil_needle q
  | cons c cs =>
    show containsSub (c :: cs) (c :: (cs ++ q)) = true
    simp only [containsSub, Bool.or_eq_true]
    exact Or.inl (isPrefixOf_append (isPrefixOf_rfl (c :: cs)))

theorem containsSub_of_eq {n hay q : Chars} (h : hay = n ++ q) :
    containsSub n hay = true := by
  rw [h]
  exact containsSub_head q

theorem containsSub_prefix2 (a b c : Chars) :
    containsSub (a ++ b) (a ++ (b ++ c)) = true := by
  rw [← List.append_assoc]
  exact containsSub_head c

theorem containsSub_prefix3 (a b c d : Chars) :
    containsSub (a ++ (b ++ c)) (a ++ (b ++ (c ++ d))) = true := by
  have h : a ++ (b ++ (c ++ d)) = (a ++ (b ++ c)) ++ d := by
    simp [List.append_assoc]
  rw [h]
  exact containsSub_head d

theorem containsSub_prefix2h {n : Chars} (a b c : Chars) (h : n = a ++ b) :
    containsSub n (a ++ (b ++ c)) = true := by
  rw [h]
  exact containsSub_prefix2 a b c

theorem containsSub_prefix3h {n : Chars} (a b c d : Chars) (h : n = a ++ (b ++ c)) :
    containsSub n (a ++ (b ++ (c ++ d))) = true := by
  rw [h]
  exact containsSub_prefix3 a b c d

theorem mem_takeWhile_pred {p : Char → Bool} {c : Char} :
    ∀ {l : Chars}, c ∈ l.takeWhile p → p c = true := by
  intro l
  induction l with
  | nil => intro h; simp [List.takeWhile] at h
  | cons x xs ih =>
    intro h
    by_cases hx : p x = true
    · rw [List.takeWhile_cons_of_pos hx] at h
      rcases List.mem_cons.mp h with rfl | h2
      · exact hx
      · exact ih h2
    · rw [List.takeWhile_cons_of_neg (by simpa using hx)] at h
      simp at h

theorem dropWhile_head_neg {p : Char → Bool} :
    ∀ {l : Chars} {c : Char} {t : Chars}, l.dropWhile p = c :: t → p c = false := by
  intro l
  induction l with
  | nil => intro c t h; simp [List.dropWhile] at h
  | cons x xs ih =>
    intro c t h
    by_cases hx : p x = true
    · rw [List.dropWhile_cons_of_pos hx] at h
      exact ih h
    · rw [List.dropWhile_cons_of_neg (by simpa using hx)] at h
      cases h
      simpa using hx

theorem dropWhile_nonnil_of_mem {p : Char → Bool} {c : Char}
    (hc : p c = false) : ∀ {l : Chars}, c ∈ l → l.dropWhile p ≠ [] := by
  intro l
  induction l with
  | nil => intro h; simp at h
  | cons x xs ih =>
    intro h
    by_cases hx : p x = true
    · rw [List.dropWhile_cons_of_pos hx]
      rcases List.mem_cons.mp h with rfl | h2
      · rw [hx] at hc; cases hc
      · exact ih h2
    · rw [List.dropWhile_cons_of_neg (by simpa using hx)]
      simp

theorem takeWhile_append_all {p : Char → Bool} {a : Chars} (b : Chars)
    (h : ∀ c ∈ a, p c = true) :
    (a ++ b).takeWhile p = a ++ b.takeWhile p := by
  induction a with
  | nil => simp
  | cons x xs ih =>
    have hx : p x = true := h x (List.mem_cons_self x xs)
    simp only [List.cons_append, List.takeWhile_cons_of_pos hx]
    rw [ih (fun c hc => h c (List.mem_cons_of_mem x hc))]

theorem dropWhile_append_all {p : Char → Bool} {a : Chars} (b : Chars)
    (h : ∀ c ∈ a, p c = true) :
    (a ++ b).dropWhile p = b.dropWhile p := by
  induction a with
  | nil => simp
  | cons x xs ih =>
    have hx : p x = true := h x (List.mem_cons_self x xs)
    simp only [List.cons_append, List.dropWhile_cons_of_pos hx]
    exact ih (fun c hc => h c (List.mem_cons_of_mem x hc))

theorem takeWhile_all {p : Char → Bool} {a : Chars}
    (h : ∀ c ∈ a, p c = true) : a.takeWhile p = a := by
  have := takeWhile_append_all (p := p) [] h
  simpa using this

theorem scanSub_no_match (m : Matcher) :
    ∀ (fuel : Nat) (pw : Bool) (s : Chars), hasMatch m pw s = false →
      scanSub m fuel pw s = (s, [], 0) := by
  intro fuel
  induction fuel with
  | zero => intro pw s _; cases s <;> rfl
  | succ f ih =>
    intro pw s h
    cases s with
    | nil => rfl
    | cons c cs =>
      rw [hasMatch] at h
      have ha : (m pw (c :: cs)).isSome = false := by
        cases hv : (m pw (c :: cs)).isSome with
        | false => rfl
        | true => rw [hv] at h; simp at h
      have hb : hasMatch m (isWordChar c) cs = false := by
        cases hv : hasMatch m (isWordChar c) cs with
        | false => rfl
        | true => rw [hv] at h; simp at h
      have h1 : m pw (c :: cs) = none := by
        cases hm : m pw (c :: cs) with
        | none => rfl
        | some r => rw [hm] at ha; simp at ha
      simp only [scanSub, h1]
      rw [ih _ _ hb]

theorem scanSub_notes_prop (m : Matcher) (Q : Chars → Prop)
    (hm : ∀ pw s r, m pw s = some r → ∀ n, r.note = some n → Q n) :
    ∀ (fuel : Nat) (pw : Bool) (s : Chars),
      ∀ n ∈ (scanSub m fuel pw s).2.1, Q n := by
  intro fuel
  induction fuel with
  | zero => intro pw s n hn; cases s <;> simp [scanSub] at hn
  | succ f ih =>
    intro pw s n hn
    cases s with
    | nil => simp [scanSub] at hn
    | cons c cs =>
      cases hmc : m pw (c :: cs) with
      | none =>
        simp only [scanSub, hmc] at hn
        exact ih _ _ n hn
      | some r =>
        cases hr : r.note with
        | none =>
          simp only [scanSub, hmc, hr] at hn
          exact ih _ _ n hn
        | some n0 =>
          simp only [scanSub, hmc, hr] at hn
          rcases List.mem_cons.mp hn with rfl | h2
          · exact hm pw (c :: cs) r hmc n hr
          · exact ih _ _ n h2

theorem scanSub_count_eq (m : Matcher) :
    ∀ (fuel : Nat) (pw : Bool) (s : Chars),
      (scanSub m fuel pw s).2.2 = countMatches m fuel pw s := by
  intro fuel
  induction fuel with
  | zero => intro pw s; cases s <;> rfl
  | succ f ih =>
    intro pw s
    cases s with
    | nil => rfl
    | cons c cs =>
      cases hmc : m pw (c :: cs) with
      | none =>
        simp only [scanSub, countMatches, hmc]
        exact ih _ _
      | some r =>
        cases hr : r.note with
        | none => simp only [scanSub, countMatches, hmc, hr, ih]
        | some n0 => simp only [scanSub, countMatches, hmc, hr, ih]

theorem scanSub_nil (m : Matcher) (fuel : Nat) (pw : Bool) :
    scanSub m fuel pw [] = ([], [], 0) := by
  cases fuel <;> rfl

theorem scanSub_cons_some (m : Matcher) (fuel : Nat) (pw : Bool) (c : Char) (cs : Chars)
    (r : MRes) (h : m pw (c :: cs) = some r) :
    scanSub m (fuel + 1) pw (c :: cs) =
      (r.rep ++ (scanSub m fuel r.pwAfter r.rest).1,
       (match r.note with
        | some n => n :: (scanSub m fuel r.pwAfter r.rest).2.1
        | none => (scanSub m fuel r.pwAfter r.rest).2.1),
       (scanSub m fuel r.pwAfter r.rest).2.2 + 1) := by
  simp only [scanSub, h]

theorem scanSub_notes_length (m : Matcher)
    (hm : ∀ pw s r, m pw s = some r → r.note.isSome = true) :
    ∀ (fuel : Nat) (pw : Bool) (s : Chars),
      (scanSub m fuel pw s).2.1.length = (scanSub m fuel pw s).2.2 := by
  intro fuel
  induction fuel with
  | zero => intro pw s; cases s <;> rfl
  | succ f ih =>
    intro pw s
    cases s with
    | nil => rfl
    | cons c cs =>
      cases hmc : m pw (c :: cs) with
      | none =>
        simp only [scanSub, hmc]
        exact ih _ _
      | some r =>
        cases hr : r.note with
        | none =>
          have := hm pw (c :: cs) r hmc
          rw [hr] at this; simp at this
        | some n0 =>
          simp only [scanSub, hmc, hr, List.length_cons, ih]

/-! ## Which notes the individual stages can emit -/

theorem bracketNote_notU (cap : Chars) : notU (bracketNote cap) := by
  unfold bracketNote
  split
  · have h0 : ("Converted bracketed identifier [".data ++ cap ++
        "] to backticks".data).head? = some 'C' := rfl
    show _ ≠ _
    rw [h0]; decide
  · have h0 : ("Removed unnecessary brackets from [".data ++ cap ++
        "]".data).head? = some 'R' := rfl
    show _ ≠ _
    rw [h0]; decide

theorem bracketMatcher_note : ∀ (pw : Bool) (s : Chars) (r : MRes),
    bracketMatcher pw s = some r → ∀ n, r.note = some n → notU n := by
  intro pw s r h n hn
  rcases Option.map_eq_some'.mp h with ⟨p, _hp, rfl⟩
  cases hn
  exact bracketNote_notU _

theorem bracketMatcher_note_isSome : ∀ (pw : Bool) (s : Chars) (r : MRes),
    bracketMatcher pw s = some r → r.note.isSome = true := by
  intro pw s r h
  rcases Option.map_eq_some'.mp h with ⟨p, _hp, rfl⟩
  rfl

theorem typeNote_head (col ty db : Chars) : (typeNote col ty db).head? = some 'C' := rfl

theorem typeMatcher_note : ∀ (pw : Bool) (s : Chars) (r : MRes),
    typeMatcher pw s = some r → ∀ n, r.note = some n → notU n := by
  intro pw s r h n hn
  rcases Option.map_eq_some'.mp h with ⟨t, _ht, rfl⟩
  simp only at hn
  split at hn
  · exact absurd hn (by simp)
  · cases hn
    show _ ≠ _
    rw [typeNote_head]
    decide

theorem convert_identifiers_notes_notU (s : Chars) :
    ∀ n ∈ (convert_identifiers s).2, notU n := by
  intro n hn
  exact scanSub_notes_prop bracketMatcher notU bracketMatcher_note _ _ _ n hn

theorem foldl_firedStep_notU (L : List (Matcher × Chars))
    (hL : ∀ p ∈ L, notU p.2) :
    ∀ (acc : Chars × List Chars), (∀ n ∈ acc.2, notU n) →
      ∀ n ∈ (L.foldl firedStep acc).2, notU n := by
  induction L with
  | nil => intro acc hacc n hn; exact hacc n hn
  | cons p ps ih =>
    intro acc hacc n hn
    simp only [List.foldl_cons] at hn
    refine ih (fun q hq => hL q (List.mem_cons_of_mem p hq)) _ ?_ n hn
    intro n2 hn2
    simp only [firedStep] at hn2
    rcases List.mem_append.mp hn2 with h1 | h2
    · exact hacc n2 h1
    · have he : n2 = p.2 := by
        revert h2; split
        · intro h; simp at h
        · intro h; simpa using h
      rw [he]
      exact hL p (List.mem_cons_self p ps)

theorem convert_date_functions_notes_notU (s : Chars) :
    ∀ n ∈ (convert_date_functions s).2, notU n := by
  intro n hn
  refine foldl_firedStep_notU datePatternList ?_ (s, []) (by simp) n hn
  intro p hp
  simp only [datePatternList, List.mem_cons] at hp
  rcases hp with h|h|h|h|h|h|h
  · subst h; decide
  · subst h; decide
  · subst h; decide
  · subst h; decide
  · subst h; decide
  · subst h; decide
  · simp at h

theorem convert_system_functions_notes_notU (s : Chars) :
    ∀ n ∈ (convert_system_functions s).2, notU n := by
  intro n hn
  refine foldl_firedStep_notU sysFuncList ?_ (s, []) (by simp) n hn
  intro p hp
  simp only [sysFuncList, List.mem_cons] at hp
  rcases hp with h|h|h|h|h|h|h|h|h|h|h
  · subst h; decide
  · subst h; decide
  · subst h; decide
  · subst h; decide
  · subst h; decide
  · subst h; decide
  · subst h; decide
  · subst h; decide
  · subst h; decide
  · subst h; decide
  · simp at h

theorem convert_data_types_notes_notU (s : Chars) :
    ∀ n ∈ (convert_data_types s).2, notU n := by
  intro n hn
  obtain ⟨l, hl, hnl⟩ := List.mem_flatten.mp hn
  obtain ⟨pr, hpr, rfl⟩ := List.mem_map.mp hl
  obtain ⟨line, _hline, rfl⟩ := List.mem_map.mp hpr
  revert hnl
  split
  · intro h; simp at h
  · intro h
    exact scanSub_notes_prop typeMatcher notU typeMatcher_note _ _ _ n h

theorem convert_constraints_notes_notU (s : Chars) :
    ∀ n ∈ (convert_constraints s).2, notU n := by
  intro n hn
  simp only [convert_constraints] at hn
  rcases List.mem_append.mp hn with h | h
  · rcases List.mem_append.mp h with h1 | h2
    · have : n = pkNote := by revert h1; split <;> intro h <;> simp_all
      rw [this]; decide
    · have : n = fkNote := by revert h2; split <;> intro h <;> simp_all
      rw [this]; decide
  · have : n = ckNote := by revert h; split <;> intro h <;> simp_all
    rw [this]; decide

theorem addDelta_notes_notU (s : Chars) :
    ∀ n ∈ (addDelta s).2, notU n := by
  intro n hn
  unfold addDelta at hn
  revert hn
  split
  · split
    · intro h
      have : n = deltaNote := by simpa using h
      rw [this]; decide
    · intro h; simp at h
  · intro h; simp at h

theorem convert_query_notes_notU (st : Converter) (q : Chars) :
    ∀ n ∈ (convert_query st q).1.2, notU n := by
  intro n hn
  have hn' : n ∈ ((convert_identifiers q).2 ++ (convert_date_functions (convert_identifiers q).1).2 ++
      (convert_system_functions (convert_date_functions (convert_identifiers q).1).1).2 ++ []) := hn
  rcases List.mem_append.mp hn' with h | h
  · rcases List.mem_append.mp h with h1 | h2
    · rcases List.mem_append.mp h1 with h3 | h4
      · exact convert_identifiers_notes_notU _ n h3
      · exact convert_date_functions_notes_notU _ n h4
    · exact convert_system_functions_notes_notU _ n h2
  · simp at h

theorem convert_ddl_notes_notU (st : Converter) (d : Chars) :
    ∀ n ∈ (convert_ddl st d).1.2, notU n := by
  intro n hn
  have hn' : n ∈ ((convert_identifiers d).2 ++ (convert_data_types (convert_identifiers d).1).2 ++
      (convert_constraints (convert_data_types (convert_identifiers d).1).1).2 ++
      (addDelta (convert_default_values
        (convert_constraints (convert_data_types (convert_identifiers d).1).1).1)).2) := hn
  rcases List.mem_append.mp hn' with h | h
  · rcases List.mem_append.mp h with h1 | h2
    · rcases List.mem_append.mp h1 with h3 | h4
      · exact convert_identifiers_notes_notU _ n h3
      · exact convert_data_types_notes_notU _ n h4
    · exact convert_constraints_notes_notU _ n h2
  · exact addDelta_notes_notU _ n h

/-! ## Claim theorems -/

/-- Claim C1 (code bug).  The claim says `GETDATE()` is rewritten to
`CURRENT_TIMESTAMP()` and `CAST(GETDATE() AS DATE)` to `CURRENT_DATE()`,
with the cast special case applied first.  In the code the generic
`CAST\s*\(\s*([^\s]+)\s+AS\s+DATE\s*\)` rule of `DATE_FUNCTION_PATTERNS`
runs before the special case and turns the text into `DATE(GETDATE())`,
so the special case (converter.py:150) never fires; the
`CURRENT_TIMESTAMP → CURRENT_TIMESTAMP()` function mapping then corrupts
the result further.  This theorem evaluates the pipeline at the failing
inputs and shows the dedicated special-case rewrite alone would have
produced `CURRENT_DATE()`. -/
theorem C1_cast_getdate_divergence :
    (convert_date_functions "CAST(GETDATE() AS DATE)".data).1 =
      "DATE(CURRENT_TIMESTAMP())".data ∧
    (convert_query ⟨none, none, []⟩ "CAST(GETDATE() AS DATE)".data).1.1 =
      "DATE(CURRENT_TIMESTAMP() () )".data ∧
    (convert_query ⟨none, none, []⟩ "CAST(GETDATE() AS DATE)".data).1.1 ≠
      "CURRENT_DATE()".data ∧
    (convert_query ⟨none, none, []⟩ "SELECT GETDATE()".data).1.1 =
      "SELECT CURRENT_TIMESTAMP() ()".data ∧
    (runSub pCastGetdate "CAST(GETDATE() AS DATE)".data).1 = "CURRENT_DATE()".data :=
  ⟨by decide, by decide, by decide, by decide, by decide⟩

/-- Claim C6: conversion is a pure function of the input document and
the catalog/schema configuration.  The instance log is reset at the start
of every call, so the result (text and note list) is independent of the
log the instance carried before the call, and calling the same operation
twice in a row — the second call seeing the state left by the first —
returns identical results for `convert_query`, `convert_ddl` and the
Power M `convert`. -/
theorem C6_round_trip_stability :
    ∀ (cat sch : Option Chars) (l₁ l₂ : List Chars) (q d m : Chars),
      convert_query ⟨cat, sch, l₁⟩ q = convert_query ⟨cat, sch, l₂⟩ q ∧
      convert_ddl ⟨cat, sch, l₁⟩ d = convert_ddl ⟨cat, sch, l₂⟩ d ∧
      powerM_convert ⟨cat, sch, l₁⟩ m = powerM_convert ⟨cat, sch, l₂⟩ m ∧
      (convert_query (convert_query ⟨cat, sch, l₁⟩ q).2 q).1 =
        (convert_query ⟨cat, sch, l₁⟩ q).1 ∧
      (convert_ddl (convert_ddl ⟨cat, sch, l₁⟩ d).2 d).1 =
        (convert_ddl ⟨cat, sch, l₁⟩ d).1 ∧
      (powerM_convert (powerM_convert ⟨cat, sch, l₁⟩ m).2 m).1 =
        (powerM_convert ⟨cat, sch, l₁⟩ m).1 :=
  fun _ _ _ _ _ _ _ => ⟨rfl, rfl, rfl, rfl, rfl, rfl⟩

/-- Claim C7: the constraint analyzer is detection-and-annotation only —
it returns the DDL text unchanged for every input; DDL containing
`FOREIGN KEY` (or a `CHECK (` constraint) gets a warning note, DDL
containing `PRIMARY KEY` gets a non-warning "preserved" note. -/
theorem C7_constraint_analyzer : ∀ ddl : Chars,
    (convert_constraints ddl).1 = ddl ∧
    (containsSub "FOREIGN KEY".data (upperL ddl) = true →
      fkNote ∈ (convert_constraints ddl).2 ∧ "WARNING".data.isPrefixOf fkNote = true) ∧
    (hasMatch pCheck false ddl = true →
      ckNote ∈ (convert_constraints ddl).2 ∧ "WARNING".data.isPrefixOf ckNote = true) ∧
    (containsSub "PRIMARY KEY".data (upperL ddl) = true →
      pkNote ∈ (convert_constraints ddl).2 ∧ "WARNING".data.isPrefixOf pkNote = false) := by
  intro ddl
  refine ⟨rfl, ?_, ?_, ?_⟩
  · intro h
    refine ⟨?_, by decide⟩
    simp [convert_constraints, h]
  · intro h
    refine ⟨?_, by decide⟩
    simp [convert_constraints, h]
  · intro h
    refine ⟨?_, by decide⟩
    simp [convert_constraints, h]

/-- Witness for C7 at a DDL containing all three constraint kinds. -/
theorem C7_witness :
    (convert_constraints "CREATE TABLE t (id INT PRIMARY KEY, x INT, FOREIGN KEY (x) REFERENCES u(id), CHECK (x > 0))".data).1 =
      "CREATE TABLE t (id INT PRIMARY KEY, x INT, FOREIGN KEY (x) REFERENCES u(id), CHECK (x > 0))".data ∧
    fkNote ∈ (convert_constraints "CREATE TABLE t (id INT PRIMARY KEY, x INT, FOREIGN KEY (x) REFERENCES u(id), CHECK (x > 0))".data).2 ∧
    ckNote ∈ (convert_constraints "CREATE TABLE t (id INT PRIMARY KEY, x INT, FOREIGN KEY (x) REFERENCES u(id), CHECK (x > 0))".data).2 ∧
    pkNote ∈ (convert_constraints "CREATE TABLE t (id INT PRIMARY KEY, x INT, FOREIGN KEY (x) REFERENCES u(id), CHECK (x > 0))".data).2 := by
  obtain ⟨h1, h2, h3, h4⟩ := C7_constraint_analyzer
    "CREATE TABLE t (id INT PRIMARY KEY, x INT, FOREIGN KEY (x) REFERENCES u(id), CHECK (x > 0))".data
  exact ⟨h1, (h2 (by decide)).1, (h3 (by decide)).1, (h4 (by decide)).1⟩

/-- Claim C9: the table-reference qualifier stage returns its input
unchanged and logs nothing, for every input text and every
catalog/schema configuration (its substitution is disabled in the
source: the `re.sub` call at converter.py:210 is commented out). -/
theorem C9_table_reference_qualifier_noop :
    ∀ (cat sch : Option Chars) (log : List Chars) (s : Chars),
      convert_table_references ⟨cat, sch, log⟩ s = (s, []) :=
  fun _ _ _ _ => rfl

/-- Claim C10: the note logged when a `FabricConverter` is constructed is
present in the fresh instance's log but can never appear in the note list
returned by `convert_query` or `convert_ddl`, because both reset the log
on entry and no pipeline stage emits a note starting with `U`. -/
theorem C10_fabric_note_never_returned :
    ∀ (cat sch : Option Chars) (q d : Chars),
      (fabricInit cat sch).conversion_log = [fabricNote] ∧
      fabricNote ∉ (convert_query (fabricInit cat sch) q).1.2 ∧
      fabricNote ∉ (convert_ddl (fabricInit cat sch) d).1.2 := by
  intro cat sch q d
  refine ⟨rfl, ?_, ?_⟩
  · intro hmem
    exact (convert_query_notes_notU (fabricInit cat sch) q fabricNote hmem) rfl
  · intro hmem
    exact (convert_ddl_notes_notU (fabricInit cat sch) d fabricNote hmem) rfl

/-- Claim C5 (amended).  When the DDL text reaching the augmenter
contains `CREATE TABLE`, lacks `USING DELTA` and contains at least one
closing parenthesis, exactly one ` USING DELTA` is inserted immediately
after the last closing parenthesis (the suffix after the insertion point
has no `)`), with one log note; the augmenter is idempotent; and
`convert_ddl`'s output text is the augmenter applied to the text produced
by the identifier/type/constraint/DEFAULT stages.  (The original claim is
falsified by CREATE TABLE texts with no closing parenthesis, where
nothing is inserted — see the counterexample.) -/
theorem C5_storage_augmenter :
    (∀ s : Chars,
      containsSub "CREATE TABLE".data (upperL s) = true →
      containsSub "USING DELTA".data (upperL s) = false →
      s.contains ')' = true →
      ∃ pre post : Chars,
        s = (pre ++ [')']) ++ post ∧
        post.contains ')' = false ∧
        addDelta s = ((pre ++ [')']) ++ " USING DELTA".data ++ post, [deltaNote])) ∧
    (∀ s : Chars, addDelta (addDelta s).1 = ((addDelta s).1, [])) ∧
    (∀ (st : Converter) (ddl : Chars),
      (convert_ddl st ddl).1.1 = (addDelta (ddlStagesText ddl)).1) := by
  refine ⟨?_, ?_, ?_⟩
  case refine_3 =>
    intro st ddl
    simp only [convert_ddl, ddlStagesText, convert_constraints]
  · intro s h1 h2 h3
    have hmem : ')' ∈ s.reverse := List.mem_reverse.mpr (List.elem_iff.mp h3)
    have hne : s.reverse.dropWhile (fun c => !(c == ')')) ≠ [] :=
      dropWhile_nonnil_of_mem (by decide) hmem
    obtain ⟨c, t, hct⟩ := List.exists_cons_of_ne_nil hne
    have hc : c = ')' := by
      have := dropWhile_head_neg hct
      simpa using this
    subst hc
    refine ⟨t.reverse, (s.reverse.takeWhile (fun c => !(c == ')'))).reverse, ?_, ?_, ?_⟩
    · conv_lhs => rw [← s.reverse_reverse, ← List.takeWhile_append_dropWhile
        (fun c => !(c == ')')) s.reverse]
      rw [List.reverse_append, hct, List.reverse_cons]
    · cases hcon : (s.reverse.takeWhile (fun c => !(c == ')'))).reverse.contains ')' with
      | false => rfl
      | true =>
        have hm := List.elem_iff.mp hcon
        have hm2 := List.mem_reverse.mp hm
        have := mem_takeWhile_pred hm2
        simp at this
    · unfold addDelta
      rw [h1, h2, h3]
      simp only [Bool.not_false, Bool.and_self, if_true]
      unfold lastParenSplit
      rw [hct, List.reverse_cons]
  · intro s
    by_cases hc : (containsSub "CREATE TABLE".data (upperL s) &&
        !containsSub "USING DELTA".data (upperL s)) = true
    · by_cases hp : s.contains ')' = true
      · have hval : addDelta s =
            ((lastParenSplit s).1 ++ " USING DELTA".data ++ (lastParenSplit s).2,
             [deltaNote]) := by
          unfold addDelta
          rw [if_pos hc, if_pos hp]
        rw [hval]
        have hins : containsSub "USING DELTA".data
            (upperL ((lastParenSplit s).1 ++ " USING DELTA".data ++ (lastParenSplit s).2)) = true := by
          unfold upperL
          rw [List.append_assoc, List.map_append]
          refine containsSub_append_left _ ?_
          rw [List.map_append]
          refine containsSub_append_right _ _ ?_
          decide
        unfold addDelta
        rw [hins]
        simp
      · have hval : addDelta s = (s, []) := by
          unfold addDelta
          rw [if_pos hc, if_neg (by simpa using hp)]
        rw [hval]
        exact hval
    · have hval : addDelta s = (s, []) := by
        unfold addDelta
        rw [if_neg (by simpa using hc)]
      rw [hval]
      exact hval

/-- Counterexample to Claim C5 as stated: `CREATE TABLE t` contains
`CREATE TABLE`, lacks a storage clause, yet `convert_ddl` inserts nothing
and logs nothing because the text has no closing parenthesis. -/
theorem C5_counterexample :
    (convert_ddl ⟨none, none, []⟩ "CREATE TABLE t".data).1 =
      ("CREATE TABLE t".data, []) ∧
    containsSub "CREATE TABLE".data (upperL "CREATE TABLE t".data) = true ∧
    containsSub "USING DELTA".data
      (upperL (convert_ddl ⟨none, none, []⟩ "CREATE TABLE t".data).1.1) = false :=
  ⟨by decide, by decide, by decide⟩

/-- Witness for C5 at a concrete CREATE TABLE statement. -/
theorem C5_witness :
    ∃ pre post : Chars,
      "CREATE TABLE T (A INT)".data = (pre ++ [')']) ++ post ∧
      post.contains ')' = false ∧
      addDelta "CREATE TABLE T (A INT)".data =
        ((pre ++ [')']) ++ " USING DELTA".data ++ post, [deltaNote]) :=
  C5_storage_augmenter.1 "CREATE TABLE T (A INT)".data (by decide) (by decide) (by decide)

/-- Claim C2 (amended).  When the *first* `[Name="X"]` occurrence of the
script captures `Accounts` and the *first* `Date.IsInPreviousNDays`
occurrence captures `(CreatedDate, 365)`, the synthesized statement
targets table `accounts` with the 12-month WHERE clause; and whenever
the first captured day count differs from `365`, the filter is a literal
day interval.  (The original claim quantified over every script merely
*containing* those substrings; an earlier `[Name="…"]` or day filter
preempts them — see the counterexample.) -/
theorem C2_powerm_amended :
    (∀ (script : Chars) (cat sch : Option Chars) (l : List Chars),
      firstMatch mName script = some "Accounts".data →
      firstMatch mPrevNDays script = some ("CreatedDate".data, "365".data) →
      (extract_table_name script).1 = "accounts".data ∧
      (extract_date_filter script).1 =
        some "CreatedDate >= CURRENT_DATE() - INTERVAL 12 MONTHS".data ∧
      containsSub "\n\nCREATE OR REPLACE TABLE accounts AS\nSELECT\n  ".data
        (powerM_convert ⟨cat, sch, l⟩ script).1.1 = true ∧
      containsSub "\nWHERE CreatedDate >= CURRENT_DATE() - INTERVAL 12 MONTHS".data
        (powerM_convert ⟨cat, sch, l⟩ script).1.1 = true) ∧
    (∀ (script col d : Chars),
      firstMatch mPrevNDays script = some (col, d) →
      (d == "365".data) = false →
      (extract_date_filter script).1 =
        some (col ++ " >= CURRENT_DATE() - INTERVAL ".data ++ d ++ " DAYS".data)) := by
  constructor
  · intro script cat sch l h1 h2
    have hun : underscoreSp (lowerL "Accounts".data) = "accounts".data := by decide
    have ht : (extract_table_name script).1 = "accounts".data := by
      simp [extract_table_name, h1, hun]
    have hf : (extract_date_filter script).1 =
        some "CreatedDate >= CURRENT_DATE() - INTERVAL 12 MONTHS".data := by
      have h0 : (extract_date_filter script).1 =
          some ("CreatedDate".data ++ " >= CURRENT_DATE() - INTERVAL 12 MONTHS".data) := by
        simp [extract_date_filter, h2]
      rw [h0]
      decide
    refine ⟨ht, hf, ?_, ?_⟩
    · have hb : (powerM_convert ⟨cat, sch, l⟩ script).1.1 =
          (build_databricks_query cat sch (extract_source script).1 "accounts".data
            (extract_selected_columns script).1
            (some "CreatedDate >= CURRENT_DATE() - INTERVAL 12 MONTHS".data)
            (extract_sort_order script).1).1 := by
        simp only [powerM_convert, ht, hf]
      rw [hb]
      simp only [build_databricks_query, List.append_assoc]
      apply containsSub_append_left
      apply containsSub_append_left
      apply containsSub_append_left
      apply containsSub_append_left
      exact containsSub_prefix3h _ _ _ _ (by decide)
    · have hb : (powerM_convert ⟨cat, sch, l⟩ script).1.1 =
          (build_databricks_query cat sch (extract_source script).1 "accounts".data
            (extract_selected_columns script).1
            (some "CreatedDate >= CURRENT_DATE() - INTERVAL 12 MONTHS".data)
            (extract_sort_order script).1).1 := by
        simp only [powerM_convert, ht, hf]
      rw [hb]
      simp only [build_databricks_query, List.append_assoc]
      apply containsSub_append_left
      apply containsSub_append_left
      apply containsSub_append_left
      apply containsSub_append_left
      apply containsSub_append_left
      apply containsSub_append_left
      apply containsSub_append_left
      apply containsSub_append_left
      apply containsSub_append_left
      apply containsSub_append_left
      exact containsSub_prefix2h _ _ _ (by decide)
  · intro script col d h hne
    simp [extract_date_filter, h, hne]

/-- Counterexample to Claim C2 as stated: a script containing both
`Source{[Name="Accounts"]}[Data]` and
`Date.IsInPreviousNDays([CreatedDate], 365)` but preceded by another
`[Name="Zed"]` step reference synthesizes target table `zed`, not
`accounts`. -/
theorem C2_counterexample :
    containsSub "Source\x7b[Name=\"Accounts\"]\x7d[Data]".data
      "[Name=\"Zed\"] Source\x7b[Name=\"Accounts\"]\x7d[Data] Date.IsInPreviousNDays([CreatedDate], 365)".data = true ∧
    containsSub "Date.IsInPreviousNDays([CreatedDate], 365)".data
      "[Name=\"Zed\"] Source\x7b[Name=\"Accounts\"]\x7d[Data] Date.IsInPreviousNDays([CreatedDate], 365)".data = true ∧
    (extract_table_name
      "[Name=\"Zed\"] Source\x7b[Name=\"Accounts\"]\x7d[Data] Date.IsInPreviousNDays([CreatedDate], 365)".data).1 =
      "zed".data ∧
    containsSub "CREATE OR REPLACE TABLE zed AS".data
      (powerM_convert ⟨none, none, []⟩
        "[Name=\"Zed\"] Source\x7b[Name=\"Accounts\"]\x7d[Data] Date.IsInPreviousNDays([CreatedDate], 365)".data).1.1 = true ∧
    containsSub "CREATE OR REPLACE TABLE accounts".data
      (powerM_convert ⟨none, none, []⟩
        "[Name=\"Zed\"] Source\x7b[Name=\"Accounts\"]\x7d[Data] Date.IsInPreviousNDays([CreatedDate], 365)".data).1.1 = false :=
  ⟨by decide, by decide, by decide, by decide, by decide⟩

/-- Witness for C2 at the spec's canonical script and a 30-day filter. -/
theorem C2_witness :
    ((extract_table_name
        "Source\x7b[Name=\"Accounts\"]\x7d[Data] Date.IsInPreviousNDays([CreatedDate], 365)".data).1 =
      "accounts".data ∧
     containsSub "\nWHERE CreatedDate >= CURRENT_DATE() - INTERVAL 12 MONTHS".data
       (powerM_convert ⟨none, none, []⟩
         "Source\x7b[Name=\"Accounts\"]\x7d[Data] Date.IsInPreviousNDays([CreatedDate], 365)".data).1.1 = true) ∧
    (extract_date_filter "Date.IsInPreviousNDays([Created], 30)".data).1 =
      some ("Created".data ++ " >= CURRENT_DATE() - INTERVAL ".data ++ "30".data ++ " DAYS".data) := by
  have h := C2_powerm_amended.1
    "Source\x7b[Name=\"Accounts\"]\x7d[Data] Date.IsInPreviousNDays([CreatedDate], 365)".data
    none none [] (by decide) (by decide)
  exact ⟨⟨h.1, h.2.2.2⟩,
    C2_powerm_amended.2 "Date.IsInPreviousNDays([Created], 30)".data
      "Created".data "30".data (by decide) (by decide)⟩

/-- Evaluation of the type mapper on a token `B(ps)` whose base `B` is a
known key of the mapping table: the case split of the source on the
target family, with the `(ps)` group computed by the `([A-Z]+)(\(.*\))?`
parse. -/
theorem mapType_params (B db ps : Chars)
    (hB1 : ∀ c ∈ B, isUpperAlpha c = true)
    (hB2 : upperL B = B)
    (hBe : B.isEmpty = false)
    (hlook : lookupType B = some db)
    (hps : ∀ c ∈ ps, c.toUpper = c ∧ c ≠ ')' ∧ c ≠ '\n') :
    map_sql_server_type (B ++ '(' :: (ps ++ [')'])) =
      (if (db == "DECIMAL".data || db == "NUMERIC".data) then db ++ '(' :: (ps ++ [')'])
       else if db == "STRING".data then "STRING".data
       else db) := by
  have hps' : ps.map Char.toUpper = ps := by
    have h1 : ps.map Char.toUpper = ps.map id :=
      List.map_congr_left (fun c hc => (hps c hc).1)
    rw [h1, List.map_id]
  have hmap : upperL (B ++ '(' :: (ps ++ [')'])) = B ++ '(' :: (ps ++ [')']) := by
    unfold upperL at hB2 ⊢
    rw [List.map_append, hB2, List.map_cons, List.map_append, hps']
    rfl
  have htake : ((B ++ '(' :: (ps ++ [')'])).takeWhile isUpperAlpha) = B := by
    rw [takeWhile_append_all _ hB1, List.takeWhile_cons_of_neg (by decide)]
    simp
  have hdrop : ((B ++ '(' :: (ps ++ [')'])).dropWhile isUpperAlpha) =
      '(' :: (ps ++ [')']) := by
    rw [dropWhile_append_all _ hB1, List.dropWhile_cons_of_neg (by decide)]
  have hpfx : (('(' :: (ps ++ [')'])).takeWhile (fun x => !(x == '\n'))) =
      '(' :: (ps ++ [')']) := by
    apply takeWhile_all
    intro c hc
    rcases List.mem_cons.mp hc with rfl | hc2
    · decide
    · rcases List.mem_append.mp hc2 with h3 | h4
      · simpa using (hps c h3).2.2
      · rcases List.mem_singleton.mp h4 with rfl
        decide
  have hrev : (('(' :: (ps ++ [')'])).reverse) = ')' :: (ps.reverse ++ ['(']) := by
    simp
  have hgrp : grp2 ('(' :: (ps ++ [')'])) = '(' :: (ps ++ [')']) := by
    simp only [grp2]
    rw [if_pos (by decide)]
    rw [hpfx, hrev, List.dropWhile_cons_of_neg (by decide), ← hrev, List.reverse_reverse]
  simp only [map_sql_server_type, hmap, htake, hdrop, hgrp, hlook, hBe]
  simp [Bool.false_eq_true, List.isEmpty_cons]

/-- Claim C3 (amended).  The type mapper's behaviour is as claimed —
absent base types default to `STRING`, decimal-family targets retain the
`(params)` group verbatim, text-family targets drop it, `INT → INT`,
`BIT → BOOLEAN` — but no *warning* note is emitted for an unrecognized
type: the DDL pipeline only logs an ordinary `Converted column …` note
when the mapped type differs. -/
theorem C3_type_mapper_amended :
    (∀ t : Chars, lookupType ((upperL t).takeWhile isUpperAlpha) = none →
      map_sql_server_type t = "STRING".data) ∧
    (∀ ps : Chars, (∀ c ∈ ps, c.toUpper = c ∧ c ≠ ')' ∧ c ≠ '\n') →
      map_sql_server_type ("DECIMAL".data ++ '(' :: (ps ++ [')'])) =
        "DECIMAL".data ++ '(' :: (ps ++ [')'])) ∧
    (∀ ps : Chars, (∀ c ∈ ps, c.toUpper = c ∧ c ≠ ')' ∧ c ≠ '\n') →
      map_sql_server_type ("VARCHAR".data ++ '(' :: (ps ++ [')'])) = "STRING".data) ∧
    map_sql_server_type "INT".data = "INT".data ∧
    map_sql_server_type "BIT".data = "BOOLEAN".data ∧
    map_sql_server_type "TEXT".data = "STRING".data ∧
    map_sql_server_type "DECIMAL(10,2)".data = "DECIMAL(10,2)".data ∧
    map_sql_server_type "NUMERIC(5,2)".data = "DECIMAL(5,2)".data ∧
    map_sql_server_type "VARCHAR(100)".data = "STRING".data ∧
    map_sql_server_type "FOOBAR".data = "STRING".data ∧
    (convert_ddl ⟨none, none, []⟩ "CREATE TABLE t (\nname FOOBAR\n)".data).1.2 =
      [typeNote "name".data "FOOBAR".data "STRING".data, deltaNote] ∧
    ("WARNING".data.isPrefixOf (typeNote "name".data "FOOBAR".data "STRING".data))
      = false := by
  refine ⟨?_, ?_, ?_, by decide, by decide, by decide, by decide, by decide, by decide,
    by decide, by decide, by decide⟩
  · intro t h
    unfold map_sql_server_type
    by_cases hb : ((upperL t).takeWhile isUpperAlpha).isEmpty = true
    · rw [if_pos hb]
    · rw [if_neg hb, h]
  · intro ps hps
    rw [mapType_params "DECIMAL".data "DECIMAL".data ps (by decide) (by decide)
      (by decide) (by decide) hps]
    rw [if_pos (by decide)]
  · intro ps hps
    rw [mapType_params "VARCHAR".data "STRING".data ps (by decide) (by decide)
      (by decide) (by decide) hps]
    rw [if_neg (by decide), if_pos (by decide)]

/-- Counterexample to Claim C3 as stated: converting a DDL with the
unrecognized type `FOOBAR` maps it to `STRING` but emits no warning note
anywhere — the log holds only the ordinary type-conversion note and the
storage-clause note. -/
theorem C3_counterexample :
    (convert_ddl ⟨none, none, []⟩ "CREATE TABLE t (\nname FOOBAR\n)".data).1.1 =
      "CREATE TABLE t (\nname STRING\n) USING DELTA".data ∧
    ((convert_ddl ⟨none, none, []⟩ "CREATE TABLE t (\nname FOOBAR\n)".data).1.2.all
      (fun n => !("WARNING".data.isPrefixOf n))) = true ∧
    ((convert_ddl ⟨none, none, []⟩ "CREATE TABLE t (\nname FOOBAR\n)".data).1.2.length
      = 2) :=
  ⟨by decide, by decide, by decide⟩

/-- Witness for C3 at concrete parameters. -/
theorem C3_witness :
    map_sql_server_type ("DECIMAL".data ++ '(' :: ("10,2".data ++ [')'])) =
      "DECIMAL".data ++ '(' :: ("10,2".data ++ [')']) ∧
    map_sql_server_type ("VARCHAR".data ++ '(' :: ("100".data ++ [')'])) =
      "STRING".data ∧
    map_sql_server_type "FOOBAR".data = "STRING".data :=
  ⟨C3_type_mapper_amended.2.1 "10,2".data (by decide),
   C3_type_mapper_amended.2.2.1 "100".data (by decide),
   C3_type_mapper_amended.1 "FOOBAR".data (by decide)⟩

/-- Claim C4 (amended).  Source detection follows the claimed priority
order — Salesforce first, then SQL Server, else Unknown with a warning —
and each of those outcomes logs exactly one note, **except** when the
text contains `Salesforce.Data` but the quoted-URL shape
`Salesforce.Data("…"` does not match: then the inner `if match:` of
`_extract_source` has no else branch, so no source type is recorded and
no note at all is emitted. -/
theorem C4_source_detection_amended : ∀ m : Chars,
    (containsSub "Salesforce.Data".data m = true →
      (∀ url, firstMatch mSFUrl m = some url →
        extract_source m = (.salesforce url, [sfNote])) ∧
      (firstMatch mSFUrl m = none → extract_source m = (.empty, []))) ∧
    (containsSub "Salesforce.Data".data m = false →
      (containsSub "Sql.Database".data m || containsSub "Sql.Databases".data m) = true →
      extract_source m = (.sqlserver, [sqlNote])) ∧
    (containsSub "Salesforce.Data".data m = false →
      (containsSub "Sql.Database".data m || containsSub "Sql.Databases".data m) = false →
      extract_source m = (.unknown, [unknownNote]) ∧
      "WARNING".data.isPrefixOf unknownNote = true) := by
  intro m
  refine ⟨?_, ?_, ?_⟩
  · intro h
    constructor
    · intro url hu
      simp [extract_source, h, hu]
    · intro hu
      simp [extract_source, h, hu]
  · intro h1 h2
    simp only [Bool.or_eq_true] at h2
    rcases h2 with h2 | h2 <;> simp [extract_source, h1, h2]
  · intro h1 h2
    have ha : containsSub "Sql.Database".data m = false := by
      cases hv : containsSub "Sql.Database".data m
      · rfl
      · rw [hv] at h2; simp at h2
    have hb : containsSub "Sql.Databases".data m = false := by
      cases hv : containsSub "Sql.Databases".data m
      · rfl
      · rw [hv] at h2; simp at h2
    refine ⟨?_, by decide⟩
    simp [extract_source, h1, ha, hb]

/-- Counterexample to Claim C4 as stated: `Salesforce.Data()` contains a
Salesforce data-source call, yet the extraction records no source type
and emits zero notes instead of exactly one. -/
theorem C4_counterexample :
    containsSub "Salesforce.Data".data "Salesforce.Data()".data = true ∧
    extract_source "Salesforce.Data()".data = (.empty, []) :=
  ⟨by decide, by decide⟩

/-- Witness for C4 at concrete scripts for each branch. -/
theorem C4_witness :
    extract_source "x Salesforce.Data(\"https://sf.example\") y".data =
      (.salesforce "https://sf.example".data, [sfNote]) ∧
    extract_source "Sql.Database(\"srv\",\"db\")".data = (.sqlserver, [sqlNote]) ∧
    extract_source "let x = 1".data = (.unknown, [unknownNote]) :=
  ⟨((C4_source_detection_amended _).1 (by decide)).1 _ (by decide),
   (C4_source_detection_amended _).2.1 (by decide) (by decide),
   ((C4_source_detection_amended _).2.2 (by decide) (by decide)).1⟩

/-- Claim C8 (amended).  On text with no `\[([^\]]+)\]` token the
identifier normalizer is the identity and logs nothing; a single
bracketed token `[cid]` becomes a backtick-quoted identifier when `cid`
contains a *space* character or any of `-`, `/`, `\`, and the bare
identifier otherwise, with one note; and in general the stage emits
exactly one note per replaced token.  (The claim's "contains whitespace"
is too broad: the source tests `' ' in identifier`, so other whitespace
such as a tab does not trigger quoting — see the counterexample.) -/
theorem C8_identifier_normalizer :
    (∀ s : Chars, hasBracketToken s = false → convert_identifiers s = (s, [])) ∧
    (∀ cid : Chars, cid ≠ [] → (∀ c ∈ cid, c ≠ ']') →
      convert_identifiers ('[' :: (cid ++ [']'])) =
        ((if (cid.contains ' ' || cid.contains '-' ||
              cid.contains '/' || cid.contains '\\') then
            '\x60' :: (cid ++ ['\x60'])
          else cid),
         [bracketNote cid])) ∧
    (∀ s : Chars, (convert_identifiers s).2.length = bracketTokenCount s) := by
  refine ⟨?_, ?_, ?_⟩
  · intro s h
    unfold convert_identifiers runSub
    rw [scanSub_no_match bracketMatcher s.length false s h]
  · intro cid hne hcid
    have hp : ∀ c ∈ cid, (fun c => !(c == ']')) c = true := by
      intro c hc
      simpa using hcid c hc
    have htw : (cid ++ [']']).takeWhile (fun c => !(c == ']')) = cid := by
      rw [takeWhile_append_all _ hp]
      rw [List.takeWhile_cons_of_neg (by decide)]
      simp
    have hdw : (cid ++ [']']).dropWhile (fun c => !(c == ']')) = [']'] := by
      rw [dropWhile_append_all _ hp]
      rw [List.dropWhile_cons_of_neg (by decide)]
    have hemp : cid.isEmpty = false := by
      cases cid with
      | nil => exact absurd rfl hne
      | cons a l => rfl
    have hTok : bracketTok ('[' :: (cid ++ [']'])) = some (cid, []) := by
      simp [bracketTok, htw, hdw, hemp]
    have hmb : bracketMatcher false ('[' :: (cid ++ [']'])) =
        some ⟨bracketRep cid, some (bracketNote cid), false, []⟩ := by
      unfold bracketMatcher
      rw [hTok]
      rfl
    have hlen : ('[' :: (cid ++ [']'])).length = cid.length + 1 + 1 := by
      simp
    unfold convert_identifiers runSub
    rw [hlen, scanSub_cons_some bracketMatcher (cid.length + 1) false '[' (cid ++ [']'])
      _ hmb]
    simp only [scanSub_nil]
    simp [bracketRep, needsTicks]
  · intro s
    unfold convert_identifiers runSub bracketTokenCount
    rw [scanSub_notes_length bracketMatcher bracketMatcher_note_isSome s.length false s]
    rw [scanSub_count_eq bracketMatcher s.length false s]

/-- Witness for C8: identity on bracket-free text, the two spec examples
`[Customer Name]` (space → backticks) and `[dbo]` (stripped), and the
note count on a two-token text. -/
theorem C8_witness :
    convert_identifiers "SELECT 1".data = ("SELECT 1".data, []) ∧
    convert_identifiers ('[' :: ("Customer Name".data ++ [']'])) =
      ((if ("Customer Name".data.contains ' ' || "Customer Name".data.contains '-' ||
            "Customer Name".data.contains '/' || "Customer Name".data.contains '\\') then
          '\x60' :: ("Customer Name".data ++ ['\x60'])
        else "Customer Name".data),
       [bracketNote "Customer Name".data]) ∧
    convert_identifiers ('[' :: ("dbo".data ++ [']'])) =
      ((if ("dbo".data.contains ' ' || "dbo".data.contains '-' ||
            "dbo".data.contains '/' || "dbo".data.contains '\\') then
          '\x60' :: ("dbo".data ++ ['\x60'])
        else "dbo".data),
       [bracketNote "dbo".data]) ∧
    (convert_identifiers "[a] [b c]".data).2.length = bracketTokenCount "[a] [b c]".data :=
  ⟨C8_identifier_normalizer.1 _ (by decide),
   C8_identifier_normalizer.2.1 _ (by decide) (by decide),
   C8_identifier_normalizer.2.1 _ (by decide) (by decide),
   C8_identifier_normalizer.2.2 _⟩

/-- Counterexample to Claim C8 as stated: a bracketed identifier
containing a tab — whitespace, but not a space — is stripped to the bare
identifier instead of being backtick-quoted. -/
theorem C8_counterexample :
    (convert_identifiers "[a\tb]".data).1 = "a\tb".data ∧
    (convert_identifiers "[a\tb]".data).1 ≠ '\x60' :: ("a\tb".data ++ ['\x60']) ∧
    isSpaceChar '\t' = true :=
  ⟨by decide, by decide, by decide⟩

end SQLConv
